import Mathlib

/-!
Verification development for `preprocessing_profiling/plot.py`.

The file shallowly embeds the diagnostic assembly pipeline of the
repository: the image-artifact string encoding shared by every rendering
wrapper, the error-pair extraction, the stable per-pair row reordering,
and the in-place report assembly of `generate_report_visualizations`.
External collaborators (matplotlib, missingno, yellowbrick) are modelled
as abstract byte-producing functions passed in as parameters; everything
the repository itself computes is translated directly from the source.
-/

namespace PreprocessingProfiling

/-! ### Image artifact encoding

Models `base64.b64encode` followed by `urllib.parse.quote` (default
`safe='/'`), exactly the composition every wrapper in `plot.py` applies to
the rendered bytes before prefixing `'data:image/png;base64,'`. -/

/-- The standard base64 alphabet used by `base64.b64encode`. -/
def b64Alphabet : List Char :=
  "ABCDEFGHIJKLMNOPQRSTUVWXYZabcdefghijklmnopqrstuvwxyz0123456789+/".toList

/-- The base64 character for a 6-bit group. -/
def b64Char (n : Nat) : Char := b64Alphabet.getD (n % 64) 'A'

/-- RFC 4648 base64 of a byte list (bytes are `Nat`s below 256), with `=`
padding, as `base64.b64encode` produces. -/
def b64encode : List Nat → List Char
  | [] => []
  | [a] =>
    [b64Char (a / 4), b64Char (a % 4 * 16), '=', '=']
  | [a, b] =>
    [b64Char (a / 4), b64Char (a % 4 * 16 + b / 16), b64Char (b % 16 * 4), '=']
  | a :: b :: c :: rest =>
    b64Char (a / 4) :: b64Char (a % 4 * 16 + b / 16) ::
      b64Char (b % 16 * 4 + c / 64) :: b64Char (c % 64) :: b64encode rest

/-- Characters `urllib.parse.quote` leaves unescaped with its default
`safe='/'`: unreserved characters plus the slash. -/
def alwaysSafe (c : Char) : Bool :=
  ('A' ≤ c && c ≤ 'Z') || ('a' ≤ c && c ≤ 'z') || ('0' ≤ c && c ≤ '9') ||
    c == '_' || c == '.' || c == '-' || c == '~' || c == '/'

/-- Uppercase hexadecimal digits, as used by `urllib.parse.quote`. -/
def hexChars : List Char := "0123456789ABCDEF".toList

/-- The hexadecimal digit for a 4-bit group. -/
def hexDigit (n : Nat) : Char := hexChars.getD (n % 16) '0'

/-- Percent-encoding of `urllib.parse.quote` with its default `safe='/'`:
safe characters pass through, every other byte becomes `%XX`. -/
def quote : List Char → List Char
  | [] => []
  | c :: cs =>
    if alwaysSafe c then c :: quote cs
    else '%' :: hexDigit (c.toNat / 16) :: hexDigit (c.toNat % 16) :: quote cs

/-- The data-URI string every wrapper in `plot.py` returns:
`'data:image/png;base64,' + quote(base64.b64encode(bytes))`. -/
def dataImageString (bytes : List Nat) : String :=
  "data:image/png;base64," ++ String.mk (quote (b64encode bytes))

/-! ### Rendering wrappers

Each wrapper of `plot.py` draws a figure through an external renderer,
reads the figure's bytes back from a `BytesIO` buffer, and returns the
data-URI encoding of those bytes. The external draw-and-save step is the
abstract byte-producing parameter; the string construction is the
repository's own code, identical in every wrapper. -/

/-- Embeds `yellowbrick_to_img` (plot.py lines 30-38): `poof` is the
external `plot.poof(outpath=imgdata)` render step producing the bytes. -/
def yellowbrick_to_img {π : Type} (poof : π → List Nat) (plot : π) : String :=
  "data:image/png;base64," ++ String.mk (quote (b64encode (poof plot)))

/-- Embeds `histogram` (plot.py lines 73-94): `renderHist` is the external
`_plot_histogram` + `savefig` step producing the figure bytes. -/
def histogram {σ : Type} (renderHist : σ → List Nat) (series : σ) : String :=
  "data:image/png;base64," ++ String.mk (quote (b64encode (renderHist series)))

/-- Embeds `mini_histogram` (plot.py lines 97-136). -/
def mini_histogram {σ : Type} (renderMini : σ → List Nat) (series : σ) : String :=
  "data:image/png;base64," ++ String.mk (quote (b64encode (renderMini series)))

/-- Embeds `correlation_matrix` (plot.py lines 138-175): the renderer
consumes the correlation dataframe and the title. -/
def correlation_matrix {κ : Type} (renderCorr : κ → String → List Nat)
    (corrdf : κ) (title : String) : String :=
  "data:image/png;base64," ++ String.mk (quote (b64encode (renderCorr corrdf title)))

/-- A raw dataframe as handed to the missingno renderer: a list of rows of
values. -/
abbrev Frame (α : Type) : Type := List (List α)

/-- Embeds `missing_matrix` (plot.py lines 177-199): branches on the
`predictions` flag exactly as the source does (`msno.matrix(df,
predictions=True)` versus `msno.matrix(df)`); `render` is the external
missingno matrix renderer plus `savefig`. -/
def missing_matrix {α : Type} (render : Frame α → Bool → List Nat)
    (df : Frame α) (predictions : Bool) : String :=
  if predictions then
    "data:image/png;base64," ++ String.mk (quote (b64encode (render df true)))
  else
    "data:image/png;base64," ++ String.mk (quote (b64encode (render df false)))

/-- Embeds `missing_bar` (plot.py lines 201-220). -/
def missing_bar {α : Type} (renderBar : Frame α → List Nat) (df : Frame α) : String :=
  "data:image/png;base64," ++ String.mk (quote (b64encode (renderBar df)))

/-- Embeds `missing_heat` (plot.py lines 222-241). -/
def missing_heat {α : Type} (renderHeat : Frame α → List Nat) (df : Frame α) : String :=
  "data:image/png;base64," ++ String.mk (quote (b64encode (renderHeat df)))

/-- Embeds `missing_dendrogram` (plot.py lines 243-262). -/
def missing_dendrogram {α : Type} (renderDendro : Frame α → List Nat)
    (df : Frame α) : String :=
  "data:image/png;base64," ++ String.mk (quote (b64encode (renderDendro df)))

/-! ### Data model

The report is the nested mapping assembled in place by
`generate_report_visualizations`. Absent dictionary fields are `none`;
`pop` on an absent field is pandas-free Python and raises `KeyError`,
which the assembly model records in its `error` component. A dataset row
carries its trailing two columns explicitly: `actual` is `df.iloc[:, -2]`
and `predicted` is `df.iloc[:, -1]`, the positional contract the source
relies on; `payload` is every column before those two. -/

/-- One row of a result dataset: leading columns, then the actual label
(`df.iloc[:, -2]`), then the predicted label (`df.iloc[:, -1]`). -/
structure Row (α : Type) where
  payload : List α
  actual : α
  predicted : α
deriving DecidableEq, Repr

/-- A result dataset: rows in dataframe order. -/
abbrev Dataset (α : Type) : Type := List (Row α)

/-- The raw row handed to the missingno renderer (all columns in order). -/
def Row.toCells {α : Type} (r : Row α) : List α :=
  r.payload ++ [r.actual, r.predicted]

/-- The raw dataframe handed to the missingno renderer. -/
def Dataset.toFrame {α : Type} (df : Dataset α) : Frame α :=
  df.map Row.toCells

/-- One row of `report['dataframe']['test']`: leading columns and the
trailing label column. Assigning `df['pred']` appends the prediction as a
new last column, turning a test row into a `Row`. -/
structure TestRow (α : Type) where
  payload : List α
  label : α
deriving DecidableEq, Repr

/-- One entry of a block's `prediction_matrixes` list. -/
structure DiagnosticMatrix where
  name : String
  image : String
deriving DecidableEq, Repr

/-- The `report['dataframe']` sub-mapping: the `modified` view rendered in
the global missingness matrix, and the `test` frame the strategy datasets
are built from. -/
structure DataFrames (α : Type) where
  modified : Frame α
  test : List (TestRow α)

/-- The `report['baseline']` block. `result` is the baseline dataset with
actual and predicted labels in the trailing columns; `split` is present
before assembly and popped by it. -/
structure BaselineBlock (α σ : Type) where
  result : Dataset α
  split : Option σ
  prediction_matrixes : List DiagnosticMatrix
  precision_recall_curve : Option String

/-- One block of `report['strategy_classifications']`. `pred` is the
strategy's `result['pred']` column assigned onto a copy of the test
frame. -/
structure StrategyBlock (α σ : Type) where
  pred : List α
  split : Option σ
  prediction_matrixes : List DiagnosticMatrix
  precision_recall_curve : Option String
deriving DecidableEq

/-- The report mapping passed to `generate_report_visualizations`. The
strategy mapping is an association list in the dict's natural
(insertion) order. -/
structure Report (α σ : Type) where
  dataframe : DataFrames α
  missing_matrix : Option String
  baseline : BaselineBlock α σ
  strategy_classifications : List (String × StrategyBlock α σ)

/-- Result of running the assembly: the report as mutated so far, and the
uncaught exception, if one was raised (`KeyError` from popping a missing
`split`). Python mutates the caller's report in place, so the partially
mutated report is observable even when an exception escapes. -/
structure AssembleOut (α σ : Type) where
  report : Report α σ
  error : Option String

/-! ### Core pipeline operations (plot.py lines 264-309) -/

/-- First-occurrence deduplication with an accumulator of already-seen
values: an element is kept exactly when it has not occurred before. -/
def dedupFirstAux {β : Type} [DecidableEq β] (seen : List β) : List β → List β
  | [] => []
  | x :: xs =>
    if x ∈ seen then dedupFirstAux seen xs
    else x :: dedupFirstAux (x :: seen) xs

/-- First-occurrence deduplication: pandas `drop_duplicates()` with its
default `keep='first'`, preserving original order. -/
def dedupFirst {β : Type} [DecidableEq β] (l : List β) : List β :=
  dedupFirstAux [] l

/-- Index of the first occurrence of a value in a list (the list's length
when absent). -/
def firstIdx {β : Type} [DecidableEq β] (l : List β) (a : β) : Nat :=
  l.findIdx (fun b => decide (b = a))

/-- The `(actual, predicted)` pairs of the rows where the prediction is
wrong, in dataframe order: `df[df.iloc[:, -1] != df.iloc[:, -2]].iloc[:,
-2:]` before deduplication. -/
def mismatchPairs {α : Type} [DecidableEq α] (df : Dataset α) : List (α × α) :=
  (df.filter (fun r => decide (r.predicted ≠ r.actual))).map
    (fun r => (r.actual, r.predicted))

/-- Embeds the `combinations` expression (plot.py lines 280 and 289):
every distinct actual-predicted pair representing a wrong prediction,
deduplicated keeping first occurrences. -/
def combinations {α : Type} [DecidableEq α] (df : Dataset α) : List (α × α) :=
  dedupFirst (mismatchPairs df)

/-- The row mask `(df.iloc[:, -2] == pair[0]) & (df.iloc[:, -1] ==
pair[-1])` of plot.py lines 283 and 292 (for a two-element pair,
`pair[-1]` is `pair[1]`). -/
def matchesPair {α : Type} [DecidableEq α] (pair : α × α) (r : Row α) : Bool :=
  decide (r.actual = pair.1) && decide (r.predicted = pair.2)

/-- The reordered dataset of plot.py lines 283 and 292:
`df[mask].append(df[~mask])`, putting the rows with the prediction error
in question on top. -/
def reorderForPair {α : Type} [DecidableEq α] (df : Dataset α) (pair : α × α) :
    Dataset α :=
  df.filter (matchesPair pair) ++ df.filter (fun r => !(matchesPair pair r))

/-- The entry appended first to `prediction_matrixes` (plot.py lines 279
and 288): the unreordered dataset rendered with prediction annotation. -/
def buildOriginal {α : Type} (render : Frame α → Bool → List Nat)
    (df : Dataset α) : DiagnosticMatrix :=
  { name := "Original Dataset", image := missing_matrix render df.toFrame true }

/-- The per-pair entry of the loops at plot.py lines 281-284 and 290-293:
named `str(pair[0]) + "→" + str(pair[1])` over the reordered dataset,
rendered with prediction annotation. -/
def buildForPair {α : Type} [DecidableEq α] (toStr : α → String)
    (render : Frame α → Bool → List Nat) (df : Dataset α)
    (pair : α × α) : DiagnosticMatrix :=
  { name := toStr pair.1 ++ "→" ++ toStr pair.2,
    image := missing_matrix render (reorderForPair df pair).toFrame true }

/-- The strategy dataset of plot.py lines 286-287: a copy of the test
frame with the strategy's `pred` column assigned as the new last
column. -/
def strategyDf {α : Type} (test : List (TestRow α)) (pred : List α) : Dataset α :=
  List.zipWith (fun tr p => { payload := tr.payload, actual := tr.label, predicted := p }) test pred

/-- The `try: matplotlib.style.use("default") except: pass` of plot.py
lines 267-272: the outcome of the external style reset is consumed and
any exception it raised is swallowed by the bare `except`. -/
def tryStyleReset (outcome : Except String Unit) : Except String Unit :=
  match outcome with
  | .ok u => .ok u
  | .error _ => .ok ()

/-- The loop of plot.py lines 301-307: pop each strategy's `split` and
store its precision-recall curve. If a block's `split` is absent, the
`KeyError` escapes at that point: earlier blocks keep their new fields,
the failing block and the rest are left as they were. `prCurve` stands
for the external fit-score-render step on a split. -/
def popStrategySplits {α σ : Type} (prCurve : σ → List Nat) :
    List (String × StrategyBlock α σ) →
      List (String × StrategyBlock α σ) × Option String
  | [] => ([], none)
  | (name, blk) :: rest =>
    match blk.split with
    | none => ((name, blk) :: rest, some "KeyError: 'split'")
    | some sp =>
      ((name, { blk with
          split := none
          precision_recall_curve := some (yellowbrick_to_img prCurve sp) }) ::
            (popStrategySplits prCurve rest).1,
        (popStrategySplits prCurve rest).2)

/-- Embeds `generate_report_visualizations` (plot.py lines 264-309).
Parameters stand for the external collaborators: `toStr` for Python
`str`, `render` for the missingno matrix renderer, `prCurve` for the
fit-score-render of a precision-recall curve on a split, and
`resetOutcome` for the outcome of the global style reset. The Python
function mutates `report` in place; the model threads the state and
returns it together with the uncaught exception, if any. -/
def generate_report_visualizations {α σ : Type} [DecidableEq α]
    (toStr : α → String) (render : Frame α → Bool → List Nat)
    (prCurve : σ → List Nat) (resetOutcome : Except String Unit)
    (report : Report α σ) : AssembleOut α σ :=
  match tryStyleReset resetOutcome with
  | .error e => { report := report, error := some e }
  | .ok _ =>
    let r1 : Report α σ := { report with
      missing_matrix := some (missing_matrix render report.dataframe.modified false) }
    let df := r1.baseline.result
    let r2 : Report α σ := { r1 with baseline := { r1.baseline with
      prediction_matrixes :=
        buildOriginal render df :: (combinations df).map (buildForPair toStr render df) } }
    let r3 : Report α σ := { r2 with strategy_classifications :=
      r2.strategy_classifications.map (fun nb =>
        let sdf := strategyDf r2.dataframe.test nb.2.pred
        let sdfMatrixes :=
          buildOriginal render sdf ::
            (combinations sdf).map (buildForPair toStr render sdf)
        (nb.1, { nb.2 with prediction_matrixes := sdfMatrixes })) }
    match r3.baseline.split with
    | none => { report := r3, error := some "KeyError: 'split'" }
    | some sp =>
      let r4 : Report α σ := { r3 with baseline := { r3.baseline with
        split := none
        precision_recall_curve := some (yellowbrick_to_img prCurve sp) } }
      let popped := popStrategySplits prCurve r4.strategy_classifications
      { report := { r4 with strategy_classifications := popped.1 },
        error := popped.2 }

/-! ### Classifier diagnostics control flow (plot.py lines 295-300)

The per-split precision-recall computation is straight-line code with no
`try`/`finally`: the classifier is built, fitted, scored, rendered, and
only then is `plt.close()` reached. Each external step either returns or
raises; a raised exception propagates immediately. The model records, for
each combination of step outcomes, the returned value and whether the
`plt.close()` release line was executed before control left the block. -/

/-- Outcomes of the three external steps of one precision-recall block:
`pc.fit(...)`, `pc.score(...)`, and the `plot.poof(outpath=...)` render
inside `yellowbrick_to_img`. A degraded or empty artifact is a normal
return of `poof` with (possibly empty) bytes, not an exception. -/
structure PRSteps where
  fit : Except String Unit
  score : Except String Unit
  poof : Except String (List Nat)

/-- Embeds the body of plot.py lines 296-300 (and identically 303-307):
returns the computed artifact or the escaping exception, paired with
whether the `plt.close()` drawing-surface release was executed. -/
def classifier_diagnostics (steps : PRSteps) : Except String String × Bool :=
  match steps.fit with
  | .error e => (.error e, false)
  | .ok _ =>
    match steps.score with
    | .error e => (.error e, false)
    | .ok _ =>
      match steps.poof with
      | .error e => (.error e, false)
      | .ok bytes =>
        ("data:image/png;base64," ++ String.mk (quote (b64encode bytes)) |> .ok,
          true)

/-! ### Supporting lemmas -/

theorem tryStyleReset_ok (o : Except String Unit) : tryStyleReset o = .ok () := by
  cases o with
  | ok u => cases u; rfl
  | error e => rfl

theorem mem_dedupFirstAux {β : Type} [DecidableEq β] (seen l : List β) (a : β) :
    a ∈ dedupFirstAux seen l ↔ a ∈ l ∧ a ∉ seen := by
  induction l generalizing seen with
  | nil => simp [dedupFirstAux]
  | cons x xs ih =>
    by_cases hx : x ∈ seen
    · simp only [dedupFirstAux, if_pos hx, ih, List.mem_cons]
      constructor
      · exact fun h => ⟨Or.inr h.1, h.2⟩
      · rintro ⟨hax | hax, hs⟩
        · exact absurd (hax ▸ hx) hs
        · exact ⟨hax, hs⟩
    · simp only [dedupFirstAux, if_neg hx, List.mem_cons, ih]
      constructor
      · rintro (rfl | ⟨hmem, hns⟩)
        · exact ⟨Or.inl rfl, hx⟩
        · exact ⟨Or.inr hmem, fun hs => hns (Or.inr hs)⟩
      · rintro ⟨rfl | hmem, hs⟩
        · exact Or.inl rfl
        · by_cases hax : a = x
          · exact Or.inl hax
          · refine Or.inr ⟨hmem, ?_⟩
            rintro (h | h)
            · exact hax h
            · exact hs h

theorem nodup_dedupFirstAux {β : Type} [DecidableEq β] (seen l : List β) :
    (dedupFirstAux seen l).Nodup := by
  induction l generalizing seen with
  | nil => simp [dedupFirstAux]
  | cons x xs ih =>
    by_cases hx : x ∈ seen
    · simpa only [dedupFirstAux, if_pos hx] using ih seen
    · simp only [dedupFirstAux, if_neg hx, List.nodup_cons]
      refine ⟨fun hmem => ?_, ih _⟩
      exact ((mem_dedupFirstAux _ _ _).1 hmem).2 (List.mem_cons_self x seen)

theorem firstIdx_cons_self {β : Type} [DecidableEq β] (x : β) (xs : List β) :
    firstIdx (x :: xs) x = 0 := by
  simp [firstIdx, List.findIdx_cons]

theorem firstIdx_cons_ne {β : Type} [DecidableEq β] {x a : β} (xs : List β)
    (h : x ≠ a) : firstIdx (x :: xs) a = firstIdx xs a + 1 := by
  simp [firstIdx, List.findIdx_cons, h]

theorem pairwise_firstIdx_dedupFirstAux {β : Type} [DecidableEq β] (seen l : List β) :
    (dedupFirstAux seen l).Pairwise (fun a b => firstIdx l a < firstIdx l b) := by
  induction l generalizing seen with
  | nil => simp [dedupFirstAux]
  | cons x xs ih =>
    by_cases hx : x ∈ seen
    · simp only [dedupFirstAux, if_pos hx]
      refine (ih seen).imp_of_mem ?_
      intro a b ha hb hab
      have hax : x ≠ a := fun e =>
        ((mem_dedupFirstAux seen xs a).1 ha).2 (e ▸ hx)
      have hbx : x ≠ b := fun e =>
        ((mem_dedupFirstAux seen xs b).1 hb).2 (e ▸ hx)
      rw [firstIdx_cons_ne _ hax, firstIdx_cons_ne _ hbx]
      omega
    · simp only [dedupFirstAux, if_neg hx]
      refine List.Pairwise.cons ?_ ?_
      · intro b hb
        have hbx : x ≠ b := fun e =>
          ((mem_dedupFirstAux _ _ _).1 hb).2 (e ▸ List.mem_cons_self x seen)
        rw [firstIdx_cons_self, firstIdx_cons_ne _ hbx]
        exact Nat.succ_pos _
      · refine (ih (x :: seen)).imp_of_mem ?_
        intro a b ha hb hab
        have hax : x ≠ a := fun e =>
          ((mem_dedupFirstAux _ _ _).1 ha).2 (e ▸ List.mem_cons_self x seen)
        have hbx : x ≠ b := fun e =>
          ((mem_dedupFirstAux _ _ _).1 hb).2 (e ▸ List.mem_cons_self x seen)
        rw [firstIdx_cons_ne _ hax, firstIdx_cons_ne _ hbx]
        omega

theorem mem_dedupFirst {β : Type} [DecidableEq β] (l : List β) (a : β) :
    a ∈ dedupFirst l ↔ a ∈ l := by
  simp [dedupFirst, mem_dedupFirstAux]

theorem nodup_dedupFirst {β : Type} [DecidableEq β] (l : List β) :
    (dedupFirst l).Nodup := nodup_dedupFirstAux [] l

theorem pairwise_firstIdx_dedupFirst {β : Type} [DecidableEq β] (l : List β) :
    (dedupFirst l).Pairwise (fun a b => firstIdx l a < firstIdx l b) :=
  pairwise_firstIdx_dedupFirstAux [] l

theorem popStrategySplits_mem {α σ : Type} (prCurve : σ → List Nat)
    (l : List (String × StrategyBlock α σ)) :
    ∀ nb ∈ (popStrategySplits prCurve l).1, ∃ mb ∈ l,
      nb.1 = mb.1 ∧ nb.2.pred = mb.2.pred ∧
        nb.2.prediction_matrixes = mb.2.prediction_matrixes := by
  induction l with
  | nil => simp [popStrategySplits]
  | cons hd rest ih =>
    obtain ⟨name, blk⟩ := hd
    cases hsp : blk.split with
    | none =>
      simp only [popStrategySplits, hsp]
      intro nb hnb
      exact ⟨nb, hnb, rfl, rfl, rfl⟩
    | some sp =>
      simp only [popStrategySplits, hsp]
      intro nb hnb
      rcases List.mem_cons.1 hnb with rfl | h
      · exact ⟨(name, blk), List.mem_cons_self _ _, rfl, rfl, rfl⟩
      · obtain ⟨mb, hmb, h1, h2, h3⟩ := ih nb h
        exact ⟨mb, List.mem_cons_of_mem _ hmb, h1, h2, h3⟩

theorem popStrategySplits_success {α σ : Type} (prCurve : σ → List Nat)
    (l : List (String × StrategyBlock α σ))
    (herr : (popStrategySplits prCurve l).2 = none) :
    ∀ nb ∈ (popStrategySplits prCurve l).1, nb.2.split = none := by
  induction l with
  | nil => simp [popStrategySplits]
  | cons hd rest ih =>
    obtain ⟨name, blk⟩ := hd
    cases hsp : blk.split with
    | none => simp [popStrategySplits, hsp] at herr
    | some sp =>
      simp only [popStrategySplits, hsp] at herr ⊢
      intro nb hnb
      rcases List.mem_cons.1 hnb with rfl | h
      · rfl
      · exact ih herr nb h

theorem popStrategySplits_map_pred {α σ : Type} (prCurve : σ → List Nat)
    (l : List (String × StrategyBlock α σ)) :
    (popStrategySplits prCurve l).1.map (fun nb => (nb.1, nb.2.pred)) =
      l.map (fun nb => (nb.1, nb.2.pred)) := by
  induction l with
  | nil => rfl
  | cons hd rest ih =>
    obtain ⟨name, blk⟩ := hd
    cases hsp : blk.split with
    | none => simp [popStrategySplits, hsp]
    | some sp => simp [popStrategySplits, hsp, ih]

theorem hexDigit_safe (n : Nat) : alwaysSafe (hexDigit n) = true := by
  have h : n % 16 < 16 := Nat.mod_lt _ (by norm_num)
  have key : ∀ k : Fin 16, alwaysSafe (hexChars.getD k.val '0') = true := by decide
  simpa [hexDigit] using key ⟨n % 16, h⟩

theorem quote_char_mem {l : List Char} {c : Char} (h : c ∈ quote l) :
    alwaysSafe c = true ∨ c = '%' := by
  induction l with
  | nil => simp [quote] at h
  | cons x xs ih =>
    by_cases hx : alwaysSafe x
    · rw [quote, if_pos hx] at h
      rcases List.mem_cons.1 h with rfl | h
      · exact Or.inl hx
      · exact ih h
    · rw [quote, if_neg hx] at h
      rcases List.mem_cons.1 h with rfl | h
      · exact Or.inr rfl
      · rcases List.mem_cons.1 h with rfl | h
        · exact Or.inl (hexDigit_safe _)
        · rcases List.mem_cons.1 h with rfl | h
          · exact Or.inl (hexDigit_safe _)
          · exact ih h

theorem b64Char_mem (n : Nat) : b64Char n ∈ b64Alphabet := by
  have hlen : b64Alphabet.length = 64 := by decide
  have h : n % 64 < b64Alphabet.length := by
    rw [hlen]
    exact Nat.mod_lt n (by norm_num)
  rw [b64Char, List.getD_eq_getElem _ _ h]
  exact List.getElem_mem h

theorem b64encode_char_mem :
    ∀ (bs : List Nat) (c : Char), c ∈ b64encode bs → c ∈ b64Alphabet ∨ c = '='
  | [], c, h => by simp [b64encode] at h
  | [a], c, h => by
    simp only [b64encode, List.mem_cons, List.not_mem_nil, or_false] at h
    rcases h with rfl | rfl | rfl | rfl
    · exact Or.inl (b64Char_mem _)
    · exact Or.inl (b64Char_mem _)
    · exact Or.inr rfl
    · exact Or.inr rfl
  | [a, b], c, h => by
    simp only [b64encode, List.mem_cons, List.not_mem_nil, or_false] at h
    rcases h with rfl | rfl | rfl | rfl
    · exact Or.inl (b64Char_mem _)
    · exact Or.inl (b64Char_mem _)
    · exact Or.inl (b64Char_mem _)
    · exact Or.inr rfl
  | a :: b :: c₂ :: rest, c, h => by
    simp only [b64encode, List.mem_cons] at h
    rcases h with rfl | rfl | rfl | rfl | h
    · exact Or.inl (b64Char_mem _)
    · exact Or.inl (b64Char_mem _)
    · exact Or.inl (b64Char_mem _)
    · exact Or.inl (b64Char_mem _)
    · exact b64encode_char_mem rest c h

theorem gen_dataframe {α σ : Type} [DecidableEq α] (toStr : α → String)
    (render : Frame α → Bool → List Nat) (prCurve : σ → List Nat)
    (o : Except String Unit) (report : Report α σ) :
    (generate_report_visualizations toStr render prCurve o report).report.dataframe =
      report.dataframe := by
  rw [generate_report_visualizations, tryStyleReset_ok]
  cases hsp : report.baseline.split <;> simp [hsp]

theorem gen_missing_matrix {α σ : Type} [DecidableEq α] (toStr : α → String)
    (render : Frame α → Bool → List Nat) (prCurve : σ → List Nat)
    (o : Except String Unit) (report : Report α σ) :
    (generate_report_visualizations toStr render prCurve o report).report.missing_matrix =
      some (missing_matrix render report.dataframe.modified false) := by
  rw [generate_report_visualizations, tryStyleReset_ok]
  cases hsp : report.baseline.split <;> simp [hsp]

theorem gen_baseline_result {α σ : Type} [DecidableEq α] (toStr : α → String)
    (render : Frame α → Bool → List Nat) (prCurve : σ → List Nat)
    (o : Except String Unit) (report : Report α σ) :
    (generate_report_visualizations toStr render prCurve o report).report.baseline.result =
      report.baseline.result := by
  rw [generate_report_visualizations, tryStyleReset_ok]
  cases hsp : report.baseline.split <;> simp [hsp]

theorem gen_baseline_matrixes {α σ : Type} [DecidableEq α] (toStr : α → String)
    (render : Frame α → Bool → List Nat) (prCurve : σ → List Nat)
    (o : Except String Unit) (report : Report α σ) :
    (generate_report_visualizations toStr render prCurve o report).report.baseline.prediction_matrixes =
      buildOriginal render report.baseline.result ::
        (combinations report.baseline.result).map
          (buildForPair toStr render report.baseline.result) := by
  rw [generate_report_visualizations, tryStyleReset_ok]
  cases hsp : report.baseline.split <;> simp [hsp]

theorem gen_strategy_matrixes {α σ : Type} [DecidableEq α] (toStr : α → String)
    (render : Frame α → Bool → List Nat) (prCurve : σ → List Nat)
    (o : Except String Unit) (report : Report α σ) :
    ∀ nb ∈ (generate_report_visualizations toStr render prCurve o report).report.strategy_classifications,
      nb.2.prediction_matrixes =
        buildOriginal render (strategyDf report.dataframe.test nb.2.pred) ::
          (combinations (strategyDf report.dataframe.test nb.2.pred)).map
            (buildForPair toStr render (strategyDf report.dataframe.test nb.2.pred)) := by
  rw [generate_report_visualizations, tryStyleReset_ok]
  cases hsp : report.baseline.split with
  | none =>
    simp only [hsp]
    intro nb hnb
    simp only [List.mem_map] at hnb
    obtain ⟨mb, hmb, rfl⟩ := hnb
    rfl
  | some sp =>
    simp only [hsp]
    intro nb hnb
    obtain ⟨mb, hmb, h1, h2, h3⟩ := popStrategySplits_mem prCurve _ nb hnb
    simp only [List.mem_map] at hmb
    obtain ⟨pb, hpb, rfl⟩ := hmb
    rw [h3, h2]

theorem gen_strategy_map_pred {α σ : Type} [DecidableEq α] (toStr : α → String)
    (render : Frame α → Bool → List Nat) (prCurve : σ → List Nat)
    (o : Except String Unit) (report : Report α σ) :
    (generate_report_visualizations toStr render prCurve o report).report.strategy_classifications.map
        (fun nb => (nb.1, nb.2.pred)) =
      report.strategy_classifications.map (fun nb => (nb.1, nb.2.pred)) := by
  rw [generate_report_visualizations, tryStyleReset_ok]
  cases hsp : report.baseline.split with
  | none =>
    simp only [hsp]
    simp [List.map_map]
  | some sp =>
    simp only [hsp]
    rw [popStrategySplits_map_pred]
    simp [List.map_map]

theorem gen_success_split {α σ : Type} [DecidableEq α] (toStr : α → String)
    (render : Frame α → Bool → List Nat) (prCurve : σ → List Nat)
    (o : Except String Unit) (report : Report α σ)
    (h : (generate_report_visualizations toStr render prCurve o report).error = none) :
    (generate_report_visualizations toStr render prCurve o report).report.baseline.split = none ∧
      ∀ nb ∈ (generate_report_visualizations toStr render prCurve o report).report.strategy_classifications,
        nb.2.split = none := by
  rw [generate_report_visualizations, tryStyleReset_ok] at h ⊢
  cases hsp : report.baseline.split with
  | none => simp [hsp] at h
  | some sp =>
    simp only [hsp] at h ⊢
    exact ⟨trivial, popStrategySplits_success prCurve _ h⟩

theorem gen_fail_eq {α σ : Type} [DecidableEq α] (toStr : α → String)
    (render : Frame α → Bool → List Nat) (prCurve : σ → List Nat)
    (o : Except String Unit) (report : Report α σ)
    (hsp : report.baseline.split = none) :
    generate_report_visualizations toStr render prCurve o report =
      { report :=
          { dataframe := report.dataframe
            missing_matrix :=
              some (missing_matrix render report.dataframe.modified false)
            baseline :=
              { result := report.baseline.result
                split := report.baseline.split
                prediction_matrixes :=
                  buildOriginal render report.baseline.result ::
                    (combinations report.baseline.result).map
                      (buildForPair toStr render report.baseline.result)
                precision_recall_curve := report.baseline.precision_recall_curve }
            strategy_classifications :=
              report.strategy_classifications.map (fun nb =>
                let sdf := strategyDf report.dataframe.test nb.2.pred
                let sdfMatrixes :=
                  buildOriginal render sdf ::
                    (combinations sdf).map (buildForPair toStr render sdf)
                (nb.1, { nb.2 with prediction_matrixes := sdfMatrixes })) }
        error := some "KeyError: 'split'" } := by
  rw [generate_report_visualizations, tryStyleReset_ok]
  simp [hsp]

/-! ### Concrete sample inputs (shared by witnesses and counterexamples) -/

/-- A payload-free row with the given actual and predicted labels. -/
def sampleRow (a p : Nat) : Row Nat :=
  { payload := [], actual := a, predicted := p }

/-- The four-row dataset of the spec's extraction example: trailing two
columns (A,A),(A,B),(B,A),(A,B) with A = 0 and B = 1. -/
def sampleFourRows : Dataset Nat :=
  [sampleRow 0 0, sampleRow 0 1, sampleRow 1 0, sampleRow 0 1]

/-- A baseline block before assembly: dataset present, split present. -/
def sampleBaseline : BaselineBlock Nat Unit :=
  { result := sampleFourRows
    split := some ()
    prediction_matrixes := []
    precision_recall_curve := none }

/-- A strategy block before assembly. -/
def sampleStrategy : StrategyBlock Nat Unit :=
  { pred := [1]
    split := some ()
    prediction_matrixes := []
    precision_recall_curve := none }

/-- A well-formed input report with one strategy. -/
def sampleReport : Report Nat Unit :=
  { dataframe := { modified := [[5]], test := [{ payload := [2], label := 0 }] }
    missing_matrix := none
    baseline := sampleBaseline
    strategy_classifications := [("mean", sampleStrategy)] }

/-- A concrete stand-in for the external missingno renderer. -/
def sampleRender : Frame Nat → Bool → List Nat := fun _ _ => []

/-- A concrete stand-in for the external fit-score-render step. -/
def samplePr : Unit → List Nat := fun _ => []

/-- A concrete stand-in for Python `str`. -/
def sampleToStr : Nat → String := fun n => toString n

/-- A report whose baseline was already assembled: its `split` is absent
and stale diagnostics are in place. -/
def assembledReport : Report Nat Unit :=
  { sampleReport with baseline :=
      { sampleBaseline with
        split := none
        prediction_matrixes := [{ name := "stale", image := "old" }]
        precision_recall_curve := some "oldcurve" } }

/-! ### Claim theorems -/

/-- C1: after a successful assembly, the baseline block and every
strategy block have `1 + |extracted error pairs|` prediction matrixes,
entry 0 is the unreordered dataset rendered as "Original Dataset", and
the `split` field is absent from the block. -/
theorem assemble_block_invariants {α σ : Type} [DecidableEq α] (toStr : α → String)
    (render : Frame α → Bool → List Nat) (prCurve : σ → List Nat)
    (o : Except String Unit) (report : Report α σ)
    (h : (generate_report_visualizations toStr render prCurve o report).error = none) :
    ((generate_report_visualizations toStr render prCurve o report).report.baseline.prediction_matrixes.length =
        1 + (combinations report.baseline.result).length
      ∧ (generate_report_visualizations toStr render prCurve o report).report.baseline.prediction_matrixes.head? =
          some { name := "Original Dataset"
                 image := missing_matrix render report.baseline.result.toFrame true }
      ∧ (generate_report_visualizations toStr render prCurve o report).report.baseline.split = none)
    ∧ ∀ nb ∈ (generate_report_visualizations toStr render prCurve o report).report.strategy_classifications,
        nb.2.prediction_matrixes.length =
            1 + (combinations (strategyDf report.dataframe.test nb.2.pred)).length
          ∧ nb.2.prediction_matrixes.head? =
              some { name := "Original Dataset"
                     image := missing_matrix render
                       (strategyDf report.dataframe.test nb.2.pred).toFrame true }
          ∧ nb.2.split = none := by
  obtain ⟨hbs, hss⟩ := gen_success_split toStr render prCurve o report h
  refine ⟨⟨?_, ?_, hbs⟩, ?_⟩
  · rw [gen_baseline_matrixes]
    simp only [List.length_cons, List.length_map]
    omega
  · rw [gen_baseline_matrixes]
    rfl
  · intro nb hnb
    have hm := gen_strategy_matrixes toStr render prCurve o report nb hnb
    refine ⟨?_, ?_, hss nb hnb⟩
    · rw [hm]
      simp only [List.length_cons, List.length_map]
      omega
    · rw [hm]
      rfl

/-- Witness for C1: the invariant holds on a concrete successful run. -/
theorem assemble_block_invariants_witness :
    (generate_report_visualizations sampleToStr sampleRender samplePr (.ok ()) sampleReport).error = none
    ∧ (((generate_report_visualizations sampleToStr sampleRender samplePr (.ok ()) sampleReport).report.baseline.prediction_matrixes.length =
          1 + (combinations sampleReport.baseline.result).length
        ∧ (generate_report_visualizations sampleToStr sampleRender samplePr (.ok ()) sampleReport).report.baseline.prediction_matrixes.head? =
            some { name := "Original Dataset"
                   image := missing_matrix sampleRender sampleReport.baseline.result.toFrame true }
        ∧ (generate_report_visualizations sampleToStr sampleRender samplePr (.ok ()) sampleReport).report.baseline.split = none)
      ∧ ∀ nb ∈ (generate_report_visualizations sampleToStr sampleRender samplePr (.ok ()) sampleReport).report.strategy_classifications,
          nb.2.prediction_matrixes.length =
              1 + (combinations (strategyDf sampleReport.dataframe.test nb.2.pred)).length
            ∧ nb.2.prediction_matrixes.head? =
                some { name := "Original Dataset"
                       image := missing_matrix sampleRender
                         (strategyDf sampleReport.dataframe.test nb.2.pred).toFrame true }
            ∧ nb.2.split = none) :=
  ⟨by decide, assemble_block_invariants sampleToStr sampleRender samplePr (.ok ()) sampleReport (by decide)⟩

/-- C2: error-pair extraction returns exactly the distinct (actual,
predicted) pairs of the mismatched rows, never a pair with actual equal
to predicted, deduplicated keeping the first occurrence and ordered by
first occurrence, and on the rows (A,A),(A,B),(B,A),(A,B) it returns
exactly [(A,B),(B,A)]. -/
theorem extract_error_pairs_spec :
    (∀ (α : Type) [inst : DecidableEq α], ∀ df : Dataset α,
        (∀ p ∈ combinations df, p.1 ≠ p.2)
      ∧ (∀ p : α × α, p ∈ combinations df ↔
            ∃ r ∈ df, r.predicted ≠ r.actual ∧ p = (r.actual, r.predicted))
      ∧ (combinations df).Nodup
      ∧ (combinations df).Pairwise
          (fun p q => firstIdx (mismatchPairs df) p < firstIdx (mismatchPairs df) q))
    ∧ combinations sampleFourRows = [(0, 1), (1, 0)] := by
  refine ⟨?_, by decide⟩
  intro α inst df
  have hmem : ∀ p : α × α, p ∈ combinations df ↔ p ∈ mismatchPairs df := fun p =>
    mem_dedupFirst _ p
  have hchar : ∀ p : α × α, p ∈ combinations df ↔
      ∃ r ∈ df, r.predicted ≠ r.actual ∧ p = (r.actual, r.predicted) := by
    intro p
    rw [hmem]
    simp only [mismatchPairs, List.mem_map, List.mem_filter, decide_eq_true_eq]
    constructor
    · rintro ⟨r, ⟨hr, hne⟩, rfl⟩
      exact ⟨r, hr, hne, rfl⟩
    · rintro ⟨r, hr, hne, rfl⟩
      exact ⟨r, ⟨hr, hne⟩, rfl⟩
  refine ⟨?_, hchar, nodup_dedupFirst _, pairwise_firstIdx_dedupFirst _⟩
  intro p hp
  obtain ⟨r, _hr, hne, rfl⟩ := (hchar p).1 hp
  exact fun he => hne he.symm

/-- C3: the per-pair diagnostic matrix is named "<actual>→<predicted>"
and is rendered over a stable partition of the dataset: the rows matching
the pair first, then the rest, each part in dataset order. -/
theorem build_for_pair_stable_reorder :
    ∀ (α : Type) [inst : DecidableEq α], ∀ (toStr : α → String)
      (render : Frame α → Bool → List Nat) (df : Dataset α) (p : α × α),
        (buildForPair toStr render df p).name = toStr p.1 ++ "→" ++ toStr p.2
      ∧ (buildForPair toStr render df p).image =
          missing_matrix render (reorderForPair df p).toFrame true
      ∧ (∃ ys zs, reorderForPair df p = ys ++ zs
          ∧ (∀ r ∈ ys, r.actual = p.1 ∧ r.predicted = p.2)
          ∧ (∀ r ∈ zs, ¬(r.actual = p.1 ∧ r.predicted = p.2))
          ∧ List.Sublist ys df ∧ List.Sublist zs df)
      ∧ List.Perm (reorderForPair df p) df := by
  intro α inst toStr render df p
  refine ⟨rfl, rfl,
    ⟨List.filter (matchesPair p) df, List.filter (fun r => !(matchesPair p r)) df,
      rfl, ?_, ?_, List.filter_sublist df, List.filter_sublist df⟩,
    List.filter_append_perm _ df⟩
  · intro r hr
    have hmask := (List.mem_filter.1 hr).2
    simpa [matchesPair] using hmask
  · intro r hr
    have hmask := (List.mem_filter.1 hr).2
    simp [matchesPair] at hmask
    tauto

/-- C4 counterexample: on a report whose baseline was already assembled
(no `split` field), the assembly does raise a fatal `KeyError`, but only
after silently re-deriving the baseline's prediction matrixes — the
report observed afterwards is partially mutated, refuting the claim. -/
theorem assemble_reassemble_counterexample :
    (generate_report_visualizations sampleToStr sampleRender samplePr (.ok ()) assembledReport).error =
        some "KeyError: 'split'"
    ∧ (generate_report_visualizations sampleToStr sampleRender samplePr (.ok ()) assembledReport).report.baseline.prediction_matrixes ≠
        assembledReport.baseline.prediction_matrixes := by
  decide

/-- C4 amended: on a malformed report whose baseline lacks `split`, the
assembly raises a fatal `KeyError`, but only after recomputing the global
missing matrix and every block's prediction matrixes; the report is left
partially mutated, with the precision-recall fields and the strategy
splits untouched. -/
theorem assemble_missing_split_behavior :
    ∀ (α σ : Type) [inst : DecidableEq α], ∀ (toStr : α → String)
      (render : Frame α → Bool → List Nat) (prCurve : σ → List Nat)
      (o : Except String Unit) (report : Report α σ),
      report.baseline.split = none →
        (generate_report_visualizations toStr render prCurve o report).error =
            some "KeyError: 'split'"
        ∧ (generate_report_visualizations toStr render prCurve o report).report.missing_matrix =
            some (missing_matrix render report.dataframe.modified false)
        ∧ (generate_report_visualizations toStr render prCurve o report).report.baseline.prediction_matrixes =
            buildOriginal render report.baseline.result ::
              (combinations report.baseline.result).map
                (buildForPair toStr render report.baseline.result)
        ∧ (generate_report_visualizations toStr render prCurve o report).report.baseline.precision_recall_curve =
            report.baseline.precision_recall_curve
        ∧ (generate_report_visualizations toStr render prCurve o report).report.strategy_classifications.map
              (fun nb => (nb.1, nb.2.split, nb.2.precision_recall_curve)) =
            report.strategy_classifications.map
              (fun nb => (nb.1, nb.2.split, nb.2.precision_recall_curve)) := by
  intro α σ inst toStr render prCurve o report hsp
  rw [gen_fail_eq toStr render prCurve o report hsp]
  exact ⟨rfl, rfl, rfl, rfl, by simp [List.map_map]⟩

/-- Witness for the amended C4 on the concrete already-assembled report. -/
theorem assemble_missing_split_behavior_witness :
    assembledReport.baseline.split = none
    ∧ ((generate_report_visualizations sampleToStr sampleRender samplePr (.ok ()) assembledReport).error =
          some "KeyError: 'split'"
      ∧ (generate_report_visualizations sampleToStr sampleRender samplePr (.ok ()) assembledReport).report.missing_matrix =
          some (missing_matrix sampleRender assembledReport.dataframe.modified false)
      ∧ (generate_report_visualizations sampleToStr sampleRender samplePr (.ok ()) assembledReport).report.baseline.prediction_matrixes =
          buildOriginal sampleRender assembledReport.baseline.result ::
            (combinations assembledReport.baseline.result).map
              (buildForPair sampleToStr sampleRender assembledReport.baseline.result)
      ∧ (generate_report_visualizations sampleToStr sampleRender samplePr (.ok ()) assembledReport).report.baseline.precision_recall_curve =
          assembledReport.baseline.precision_recall_curve
      ∧ (generate_report_visualizations sampleToStr sampleRender samplePr (.ok ()) assembledReport).report.strategy_classifications.map
            (fun nb => (nb.1, nb.2.split, nb.2.precision_recall_curve)) =
          assembledReport.strategy_classifications.map
            (fun nb => (nb.1, nb.2.split, nb.2.precision_recall_curve))) :=
  ⟨rfl, assemble_missing_split_behavior Nat Unit sampleToStr sampleRender samplePr
    (.ok ()) assembledReport rfl⟩

/-- C5: every strategy block's prediction matrixes are computed from the
block's own dataset — the copy of the test frame carrying that block's
`pred` column — and the error pairs they cover are extracted from that
same dataset. -/
theorem strategy_matrixes_use_own_dataset :
    ∀ (α σ : Type) [inst : DecidableEq α], ∀ (toStr : α → String)
      (render : Frame α → Bool → List Nat) (prCurve : σ → List Nat)
      (o : Except String Unit) (report : Report α σ),
      ∀ nb ∈ (generate_report_visualizations toStr render prCurve o report).report.strategy_classifications,
        nb.2.prediction_matrixes =
          buildOriginal render (strategyDf report.dataframe.test nb.2.pred) ::
            (combinations (strategyDf report.dataframe.test nb.2.pred)).map
              (buildForPair toStr render (strategyDf report.dataframe.test nb.2.pred)) := by
  intro α σ inst toStr render prCurve o report
  exact gen_strategy_matrixes toStr render prCurve o report

/-- Witness for C5: the property holds of a block of the concrete
assembled report. -/
theorem strategy_matrixes_use_own_dataset_witness :
    ∃ nb ∈ (generate_report_visualizations sampleToStr sampleRender samplePr (.ok ()) sampleReport).report.strategy_classifications,
      nb.2.prediction_matrixes =
        buildOriginal sampleRender (strategyDf sampleReport.dataframe.test nb.2.pred) ::
          (combinations (strategyDf sampleReport.dataframe.test nb.2.pred)).map
            (buildForPair sampleToStr sampleRender
              (strategyDf sampleReport.dataframe.test nb.2.pred)) := by
  have hne : (generate_report_visualizations sampleToStr sampleRender samplePr
      (.ok ()) sampleReport).report.strategy_classifications ≠ [] := by decide
  exact ⟨_, List.head_mem hne,
    strategy_matrixes_use_own_dataset Nat Unit sampleToStr sampleRender samplePr
      (.ok ()) sampleReport _ (List.head_mem hne)⟩

/-- C6 counterexample: when `pc.fit` raises, the exception escapes before
the `plt.close()` line, so the drawing surface is not released on that
exit path. -/
theorem pr_close_skipped_counterexample :
    classifier_diagnostics
        { fit := .error "fit raised", score := .ok (), poof := .ok [] } =
      (.error "fit raised", false) := rfl

/-- C6 amended: the drawing surface is released exactly on the normal
return paths — including when the renderer produces a degraded or empty
artifact — and is not released when the fit, score, or render step
raises, since the code has no try/finally around `plt.close()`. -/
theorem pr_close_iff_success :
    ∀ steps : PRSteps,
      (classifier_diagnostics steps).2 = true ↔
        steps.fit = .ok () ∧ steps.score = .ok () ∧
          ∃ bytes, steps.poof = .ok bytes := by
  intro steps
  obtain ⟨f, s, p⟩ := steps
  cases f with
  | error e => simp [classifier_diagnostics]
  | ok u =>
    cases u
    cases s with
    | error e => simp [classifier_diagnostics]
    | ok u =>
      cases u
      cases p with
      | error e => simp [classifier_diagnostics]
      | ok bytes => simp [classifier_diagnostics]

/-- C7: an exception from the global style reset is swallowed by the bare
`except` and the pipeline's behavior is identical to a run where the
reset succeeded; the failure never reaches the caller. -/
theorem style_reset_swallowed :
    ∀ (α σ : Type) [inst : DecidableEq α], ∀ (toStr : α → String)
      (render : Frame α → Bool → List Nat) (prCurve : σ → List Nat)
      (e : String) (report : Report α σ),
      tryStyleReset (.error e) = .ok ()
      ∧ generate_report_visualizations toStr render prCurve (.error e) report =
          generate_report_visualizations toStr render prCurve (.ok ()) report := by
  intro α σ inst toStr render prCurve e report
  exact ⟨rfl, rfl⟩

/-- A string that is a percent-encoded base64 data-URI image: the fixed
`data:image/png;base64,` prefix followed by the percent-encoding of a
base64 payload, with no reference outside the string itself. -/
def isDataImageString (s : String) : Prop :=
  ∃ raw : List Char,
    s = "data:image/png;base64," ++ String.mk (quote raw)
    ∧ (∀ c ∈ raw, c ∈ b64Alphabet ∨ c = '=')
    ∧ (∀ c ∈ quote raw, alwaysSafe c = true ∨ c = '%')

/-- C8: every image artifact produced by any rendering wrapper is a
single self-contained string of the form
`data:image/png;base64,<percent-encoded base64 payload>`. -/
theorem image_artifact_format :
    (∀ (π : Type) (poof : π → List Nat) (plot : π),
        isDataImageString (yellowbrick_to_img poof plot))
    ∧ (∀ (σ : Type) (renderHist : σ → List Nat) (series : σ),
        isDataImageString (histogram renderHist series))
    ∧ (∀ (σ : Type) (renderMini : σ → List Nat) (series : σ),
        isDataImageString (mini_histogram renderMini series))
    ∧ (∀ (κ : Type) (renderCorr : κ → String → List Nat) (corrdf : κ) (title : String),
        isDataImageString (correlation_matrix renderCorr corrdf title))
    ∧ (∀ (α : Type) (render : Frame α → Bool → List Nat) (df : Frame α) (b : Bool),
        isDataImageString (missing_matrix render df b))
    ∧ (∀ (α : Type) (renderBar : Frame α → List Nat) (df : Frame α),
        isDataImageString (missing_bar renderBar df))
    ∧ (∀ (α : Type) (renderHeat : Frame α → List Nat) (df : Frame α),
        isDataImageString (missing_heat renderHeat df))
    ∧ (∀ (α : Type) (renderDendro : Frame α → List Nat) (df : Frame α),
        isDataImageString (missing_dendrogram renderDendro df)) := by
  have key : ∀ bytes : List Nat,
      isDataImageString ("data:image/png;base64," ++ String.mk (quote (b64encode bytes))) :=
    fun bytes =>
      ⟨b64encode bytes, rfl, fun c hc => b64encode_char_mem bytes c hc,
        fun c hc => quote_char_mem hc⟩
  refine ⟨fun π f p => key _, fun σ f s => key _, fun σ f s => key _,
    fun κ f cd t => key _, fun α f df b => ?_, fun α f df => key _,
    fun α f df => key _, fun α f df => key _⟩
  cases b
  · exact key _
  · exact key _

/-- C9: the assembly never mutates the datasets it reads: the `dataframe`
sub-mapping, the baseline's result dataset, and every strategy's `pred`
column are unchanged in the returned report, and extraction and matrix
building are pure functions of their input dataset. -/
theorem assemble_preserves_datasets :
    ∀ (α σ : Type) [inst : DecidableEq α], ∀ (toStr : α → String)
      (render : Frame α → Bool → List Nat) (prCurve : σ → List Nat)
      (o : Except String Unit) (report : Report α σ),
      (generate_report_visualizations toStr render prCurve o report).report.dataframe =
          report.dataframe
      ∧ (generate_report_visualizations toStr render prCurve o report).report.baseline.result =
          report.baseline.result
      ∧ (generate_report_visualizations toStr render prCurve o report).report.strategy_classifications.map
            (fun nb => (nb.1, nb.2.pred)) =
          report.strategy_classifications.map (fun nb => (nb.1, nb.2.pred)) := by
  intro α σ inst toStr render prCurve o report
  exact ⟨gen_dataframe toStr render prCurve o report,
    gen_baseline_result toStr render prCurve o report,
    gen_strategy_map_pred toStr render prCurve o report⟩

/-- C10: the single global missingness matrix is rendered over
`report.dataframe.modified` with the prediction annotation disabled,
while every per-block diagnostic matrix is rendered with the annotation
enabled. -/
theorem missing_matrix_annotation_flags :
    ∀ (α σ : Type) [inst : DecidableEq α], ∀ (toStr : α → String)
      (render : Frame α → Bool → List Nat) (prCurve : σ → List Nat)
      (o : Except String Unit) (report : Report α σ),
      (generate_report_visualizations toStr render prCurve o report).report.missing_matrix =
          some (missing_matrix render report.dataframe.modified false)
      ∧ (∀ m ∈ (generate_report_visualizations toStr render prCurve o report).report.baseline.prediction_matrixes,
          ∃ d : Dataset α, m.image = missing_matrix render d.toFrame true)
      ∧ (∀ nb ∈ (generate_report_visualizations toStr render prCurve o report).report.strategy_classifications,
          ∀ m ∈ nb.2.prediction_matrixes,
            ∃ d : Dataset α, m.image = missing_matrix render d.toFrame true) := by
  intro α σ inst toStr render prCurve o report
  refine ⟨gen_missing_matrix toStr render prCurve o report, ?_, ?_⟩
  · rw [gen_baseline_matrixes]
    intro m hm
    rcases List.mem_cons.1 hm with rfl | hm
    · exact ⟨report.baseline.result, rfl⟩
    · simp only [List.mem_map] at hm
      obtain ⟨pair, hp, rfl⟩ := hm
      exact ⟨reorderForPair report.baseline.result pair, rfl⟩
  · intro nb hnb m hm
    rw [gen_strategy_matrixes toStr render prCurve o report nb hnb] at hm
    rcases List.mem_cons.1 hm with rfl | hm
    · exact ⟨strategyDf report.dataframe.test nb.2.pred, rfl⟩
    · simp only [List.mem_map] at hm
      obtain ⟨pair, hp, rfl⟩ := hm
      exact ⟨reorderForPair (strategyDf report.dataframe.test nb.2.pred) pair, rfl⟩

end PreprocessingProfiling
